import Mathlib

/-!
Verification of the `tuga` CLI (`tuga/main.py`) against its specification.

The CLI is a thin presentation layer over an HTTP client object
(`TuclusterClient`, defined in `tuga/lib.py`, which is not part of the
source set).  We embed each command body as a function from an
uninterpreted client oracle and its arguments to a pair of
* the list of observable events (client calls, terminal output lines,
  progress-bar creations), in the order they occur, and
* an `Except String Unit` result: `.ok ()` for normal completion, or
  `.error e` when a client call raised an exception with string form `e`
  (execution stops at that point, as in Python).

The client oracle (`TuclusterClient` below) is modelled from the spec:
the real class is repository code that is not under the source set, so
each method is an uninterpreted function that either returns a value or
raises.  Python `None`-able string options become `Option String`; Python
truthiness on such options (`if description or ...`) is `truthyS`, which
is false for both `None` and the empty string.
-/

/-- Terminal style of a `click.secho` line: foreground, background, bold. -/
structure Sty where
  fg : Option String := none
  bg : Option String := none
  bold : Bool := false
deriving DecidableEq, Repr

def greenSty : Sty := ⟨some "green", none, false⟩

def blueSty : Sty := ⟨some "blue", none, false⟩

/-- Style used for error lines: white on red, bold. -/
def errSty : Sty := ⟨some "white", some "red", true⟩

/-- Default style (no colors). -/
def defSty : Sty := ⟨none, none, false⟩

/-- One call to a `TuclusterClient` method, with the arguments the CLI
passes.  `update_model`: the field order `(name, description, new_name,
email)` is the positional order of `tuga/lib.py`'s signature.  Modelled
from the spec: that file is not in the source set; the spec states that
`update` "applies metadata patch (name/description/email)" with the
user-given values, which fixes the positional order to
`update_model(name, description=None, new_name=None, email=None)` so that
`update`'s positional call and `create`'s keyword call
(`new_name=`, `description=`, `email=`) agree on which value lands in
which parameter. -/
inductive ClientCall where
  | post_model_zip (path : String)
  | update_model (name : String) (description new_name email : Option String)
  | create_empty_model (name : String) (description email : Option String)
  | add_model_file (path : String)
  | create_run (name : String) (script : Option String) (notify watch : Option Bool)
      (engine : String)
  | get_model (name : String) (tree : Option Bool)
  | get_models
  | get_results (task model script : Option String)
  | getFile (fid : String)
deriving DecidableEq, Repr

/-- An observable event of a command execution. -/
inductive Event where
  | call (c : ClientCall)
  | out (text : String) (sty : Sty)
  | progress (length : Nat) (label : String)
deriving DecidableEq, Repr

/-- A run-creation response as consumed by `_print_run_results`:
`status_code`, and the `entry_point` / `task_id` fields of its JSON body. -/
structure RunResult where
  status_code : Nat
  entry_point : String
  task_id : String
deriving DecidableEq, Repr

/-- JSON values, as returned (already parsed) by the client's read methods
and fed to `json.dumps`. -/
inductive Json where
  | null
  | bool (b : Bool)
  | num (n : Int)
  | str (s : String)
  | arr (xs : List Json)
  | obj (kvs : List (String × Json))

/-- Modelled from the spec: the `TuclusterClient` HTTP methods
(`tuga/lib.py` is not in the source set).  Each method is an
uninterpreted oracle that either returns a value or raises an exception
with the given string form.  `post_model_zip` returns the `name` field of
the response's JSON body (the source reads `post_result.json()['name']`);
any failure on the way to that value is a raise.  `fileSize` models
`open(path, 'rb').seek(0, 2)`. -/
structure TuclusterClient where
  fileSize : String → Nat
  post_model_zip : String → Except String String
  update_model : String → Option String → Option String → Option String → Except String Unit
  create_empty_model : String → Option String → Option String → Except String Unit
  add_model_file : String → Except String Unit
  create_run : String → Option String → Option Bool → Option Bool → String →
    Except String (List RunResult)
  get_model : String → Option Bool → Except String Json
  get_models : Except String Json
  get_results : Option String → Option String → Option String → Except String Json
  file : String → Except String Unit

/-- Python truthiness of an optional string option: `None` and `''` are
falsy, every other string is truthy. -/
def truthyS : Option String → Bool
  | none => false
  | some s => !(s == "")

/-- `os.path.basename` on POSIX paths: the part after the last slash. -/
def basename (p : String) : String :=
  String.mk (((p.data.reverse).takeWhile (fun c => !(c == '/'))).reverse)

/-- Sequencing of Python statements that may raise: run `r`; if it raised,
stop with its events and error; otherwise run the continuation on its
value and append events. -/
def pyBind {α β : Type} (r : List Event × Except String α)
    (k : α → List Event × Except String β) : List Event × Except String β :=
  match r with
  | (evs, Except.error e) => (evs, Except.error e)
  | (evs, Except.ok a) => (evs ++ (k a).1, (k a).2)

/-- JSON string escaping for one character (the escapes relevant to the
strings in scope; Python additionally escapes other control characters). -/
def escChar (c : Char) : String :=
  if c == '"' then "\\\""
  else if c == '\\' then "\\\\"
  else if c == '\n' then "\\n"
  else if c == '\t' then "\\t"
  else if c == '\r' then "\\r"
  else String.singleton c

def escChars : List Char → String
  | [] => ""
  | c :: cs => escChar c ++ escChars cs

def jsonEscape (s : String) : String :=
  escChars s.data

/-- `indent * level` spaces, the indentation prefix Python's encoder uses. -/
def pad (indent level : Nat) : String :=
  String.mk (List.replicate (indent * level) ' ')

/-- Newline followed by the indentation of the given level. -/
def nlPad (indent level : Nat) : String :=
  "\n" ++ pad indent level

/-- String comparison by code points, as Python compares `str` keys. -/
def strLt (a b : String) : Bool :=
  decide (a.data < b.data)

/-- Insert a key/value pair into a key-sorted list (ascending key order,
as Python's `sorted` produces for distinct keys). -/
def insertKV (p : String × Json) : List (String × Json) → List (String × Json)
  | [] => [p]
  | q :: rest => if strLt p.1 q.1 then p :: q :: rest else q :: insertKV p rest

def sortKV : List (String × Json) → List (String × Json)
  | [] => []
  | p :: rest => insertKV p (sortKV rest)

mutual

/-- Recursively sort every object's keys, as `json.dumps(sort_keys=True)`
does at every nesting level. -/
def canonJson : Json → Json
  | Json.null => Json.null
  | Json.bool b => Json.bool b
  | Json.num n => Json.num n
  | Json.str s => Json.str s
  | Json.arr xs => Json.arr (canonList xs)
  | Json.obj kvs => Json.obj (sortKV (canonKVs kvs))

def canonList : List Json → List Json
  | [] => []
  | x :: xs => canonJson x :: canonList xs

def canonKVs : List (String × Json) → List (String × Json)
  | [] => []
  | (k, v) :: rest => (k, canonJson v) :: canonKVs rest

end

mutual

/-- Python's `json.dumps` rendering with a non-`None` integer `indent`:
containers open with a newline and deeper indentation, items are joined
by the item separator followed by a newline and indentation, and close on
a fresh line at the outer level.  Keys are joined to values by the key
separator. -/
def jval (indent : Nat) (itemSep keySep : String) : Json → Nat → String
  | Json.null, _ => "null"
  | Json.bool true, _ => "true"
  | Json.bool false, _ => "false"
  | Json.num n, _ => toString n
  | Json.str s, _ => "\"" ++ jsonEscape s ++ "\""
  | Json.arr [], _ => "[]"
  | Json.arr (x :: xs), level =>
      "[" ++ nlPad indent (level + 1) ++
        jitems indent itemSep keySep (x :: xs) (level + 1) ++
        nlPad indent level ++ "]"
  | Json.obj [], _ => "\x7b\x7d"
  | Json.obj (kv :: rest), level =>
      "\x7b" ++ nlPad indent (level + 1) ++
        jkvs indent itemSep keySep (kv :: rest) (level + 1) ++
        nlPad indent level ++ "\x7d"

def jitems (indent : Nat) (itemSep keySep : String) : List Json → Nat → String
  | [], _ => ""
  | [x], level => jval indent itemSep keySep x level
  | x :: y :: rest, level =>
      jval indent itemSep keySep x level ++ itemSep ++ nlPad indent level ++
        jitems indent itemSep keySep (y :: rest) level

def jkvs (indent : Nat) (itemSep keySep : String) : List (String × Json) → Nat → String
  | [], _ => ""
  | [(k, v)], level =>
      "\"" ++ jsonEscape k ++ "\"" ++ keySep ++ jval indent itemSep keySep v level
  | (k, v) :: kv2 :: rest, level =>
      "\"" ++ jsonEscape k ++ "\"" ++ keySep ++ jval indent itemSep keySep v level ++
        itemSep ++ nlPad indent level ++ jkvs indent itemSep keySep (kv2 :: rest) level

end

/-- `json.dumps(v, sort_keys=sortKeys, indent=indent, separators=(itemSep, keySep))`. -/
def json_dumps (v : Json) (sortKeys : Bool) (indent : Nat) (itemSep keySep : String) : String :=
  jval indent itemSep keySep (if sortKeys then canonJson v else v) 0

/-- Sanity check of the encoder model against CPython's output for
`json.dumps(OrderedDict(b=2, a=1), sort_keys=True, indent=4, separators=(',', ': '))`. -/
theorem json_dumps_sanity :
    json_dumps (Json.obj [("b", Json.num 2), ("a", Json.num 1)]) true 4 "," ": " =
      "\x7b\n    \"a\": 1,\n    \"b\": 2\n\x7d" := by
  simp +decide [json_dumps, canonJson, canonKVs, sortKV, insertKV, strLt, jval, jkvs,
    jsonEscape, escChars, nlPad, pad, escChar]

/-! ## Command bodies

Each `<cmd>_body` is the decorated Python function's body: the callback
click invokes on dispatch.  Events appear in source order; a client call's
`Event.call` is recorded before its result is examined, since in Python
the request is issued and only then may raise. -/

/-- `create`, branch taken when `data` is truthy (source lines 43-62):
measure the file, show a progress bar, `post_model_zip`, report success,
then patch the new model's metadata, addressing it by the name found in
the upload's response body and passing `new_name=name`, `description`,
`email` by keyword. -/
def create_data_branch (client : TuclusterClient) (name dat : String)
    (description email : Option String) : List Event × Except String Unit :=
  let size := client.fileSize dat
  pyBind ([Event.progress size "Uploading data",
           Event.call (ClientCall.post_model_zip dat)],
          client.post_model_zip dat) fun serverName =>
    pyBind ([Event.out "Upload successful" greenSty,
             Event.out "Updating metadata..." blueSty,
             Event.call (ClientCall.update_model serverName description (some name) email)],
            client.update_model serverName description (some name) email) fun _ =>
      ([], Except.ok ())

/-- `create`, branch taken when `data` is falsy (source lines 64-66):
`create_empty_model(name, description, email)`. -/
def create_empty_branch (client : TuclusterClient) (name : String)
    (description email : Option String) : List Event × Except String Unit :=
  pyBind ([Event.call (ClientCall.create_empty_model name description email)],
          client.create_empty_model name description email) fun _ =>
    ([], Except.ok ())

/-- Body of `create` (source lines 40-68).  `if data:` is Python
truthiness, so `None` and the empty string both take the no-data branch;
afterwards the success line is printed in either branch. -/
def create_body (client : TuclusterClient) (name : String)
    (data description email : Option String) : List Event × Except String Unit :=
  pyBind
    (match data with
     | some dat =>
       if dat == "" then create_empty_branch client name description email
       else create_data_branch client name dat description email
     | none => create_empty_branch client name description email)
    fun _ => ([Event.out ("Model " ++ name ++ " created!") greenSty], Except.ok ())

/-- The upload loop of `update` (source lines 85-91): for each path,
measure the file, show a progress bar labelled with its basename, and
call `add_model_file(path, progress_fn)`.  The loop body never receives
the model name.  (`if files:` only guards the loop; an empty tuple skips
a loop that would do nothing anyway.) -/
def uploadFiles (client : TuclusterClient) : List String → List Event × Except String Unit
  | [] => ([], Except.ok ())
  | path :: rest =>
    let size := client.fileSize path
    pyBind ([Event.progress size ("Uploading " ++ basename path ++ "..."),
             Event.call (ClientCall.add_model_file path)],
            client.add_model_file path) fun _ =>
      uploadFiles client rest

/-- The closing output of `update` (source lines 93-98): the success
line, and a rename notice when `new_name` is truthy. -/
def update_success_outs (name : String) (new_name : Option String) : List Event :=
  [Event.out ("Model " ++ name ++ " updated!") greenSty] ++
    (match new_name with
     | some nn =>
       if nn == "" then []
       else [Event.out ("The model has been renamed to " ++ nn ++
               ". Use this name for future queries") blueSty]
     | none => [])

/-- Body of `update` (source lines 78-98).  The metadata patch is guarded
by Python truthiness of the three options and calls
`update_model(name, description, new_name, email)` positionally; then the
files are uploaded in order; then the success line, and a rename notice
when `new_name` is truthy. -/
def update_body (client : TuclusterClient) (name : String) (files : List String)
    (description new_name email : Option String) : List Event × Except String Unit :=
  pyBind
    (if truthyS description || truthyS new_name || truthyS email then
       ([Event.out "Updating metadata..." blueSty,
         Event.call (ClientCall.update_model name description new_name email)],
        client.update_model name description new_name email)
     else ([], Except.ok ()))
    fun _ =>
      pyBind (uploadFiles client files) fun _ =>
        (update_success_outs name new_name, Except.ok ())

/-- Output of `_print_run_results` for a single run result (source lines
102-110): three lines on status 201 (reading `entry_point` and `task_id`
from the body), otherwise the single generic failure line. -/
def perRunResult (r : RunResult) : List Event :=
  if r.status_code == 201 then
    [Event.out ("Run for script " ++ r.entry_point ++ " created.") greenSty,
     Event.out "To check the results, run: " defSty,
     Event.out ("tuga results --task " ++ r.task_id) blueSty]
  else
    [Event.out "Run creation failed" errSty]

/-- `_print_run_results` (source lines 101-110). -/
def _print_run_results (results : List RunResult) : List Event :=
  (results.map perRunResult).flatten

/-- Body of `anuga` (source lines 119-123): one `create_run` with engine
tag `anuga`, then print the run results. -/
def anuga_body (client : TuclusterClient) (name : String) (script : Option String)
    (notify watch : Option Bool) : List Event × Except String Unit :=
  pyBind ([Event.call (ClientCall.create_run name script notify watch "anuga")],
          client.create_run name script notify watch "anuga") fun result_list =>
    (_print_run_results result_list, Except.ok ())

/-- Body of `tuflow` (source lines 132-136): one `create_run` with engine
tag `tuflow`, then print the run results. -/
def tuflow_body (client : TuclusterClient) (name : String) (script : Option String)
    (notify watch : Option Bool) : List Event × Except String Unit :=
  pyBind ([Event.call (ClientCall.create_run name script notify watch "tuflow")],
          client.create_run name script notify watch "tuflow") fun result_list =>
    (_print_run_results result_list, Except.ok ())

/-- The spec's description of `anuga`/`tuflow`: one command shape,
parametric in the engine tag passed to `create_run`. -/
def engine_run_body (client : TuclusterClient) (name : String) (script : Option String)
    (notify watch : Option Bool) (engine : String) : List Event × Except String Unit :=
  pyBind ([Event.call (ClientCall.create_run name script notify watch engine)],
          client.create_run name script notify watch engine) fun result_list =>
    (_print_run_results result_list, Except.ok ())

/-- The fetch step of `model` (source lines 146-149): `if name:` is
Python truthiness, so `None` and the empty string both list all models;
otherwise a single model is fetched, propagating `tree`. -/
def model_fetch (client : TuclusterClient) (name : Option String) (tree : Option Bool) :
    List Event × Except String Json :=
  match name with
  | some n =>
    if n == "" then ([Event.call ClientCall.get_models], client.get_models)
    else ([Event.call (ClientCall.get_model n tree)], client.get_model n tree)
  | none => ([Event.call ClientCall.get_models], client.get_models)

/-- Body of `model` (source lines 143-158): fetch, then the header line,
then `json.dumps(result, sort_keys=True, indent=4, separators=(',', ': '))`. -/
def model_body (client : TuclusterClient) (name : Option String) (tree : Option Bool) :
    List Event × Except String Unit :=
  pyBind (model_fetch client name tree) fun result =>
    ([Event.out "Model Info:" defSty,
      Event.out (json_dumps result true 4 "," ": ") defSty], Except.ok ())

/-- Body of `results` (source lines 168-174): one `get_results` with the
task/model/script filters, then the header line, then
`json.dumps(result, sort_keys=True, indent=4, separators=(',', ': '))`.
The `download` and `tree` parameters are accepted but never read. -/
def results_body (client : TuclusterClient)
    (task model script download tree : Option String) : List Event × Except String Unit :=
  pyBind ([Event.call (ClientCall.get_results task model script)],
          client.get_results task model script) fun result =>
    ([Event.out "Result Info:" defSty,
      Event.out (json_dumps result true 4 "," ": ") defSty], Except.ok ())

/-- Body of `file` (source lines 180-183): one `client.file(fid)` call,
its result unused. -/
def file_body (client : TuclusterClient) (fid : String) : List Event × Except String Unit :=
  pyBind ([Event.call (ClientCall.getFile fid)], client.file fid) fun _ =>
    ([], Except.ok ())

/-- The `format_exception` decorator (source lines 6-14): run the wrapped
callable; if it raised, print the exception's string form as one bold
white-on-red line and swallow it. -/
def format_exception (r : List Event × Except String Unit) : List Event :=
  match r with
  | (evs, Except.ok _) => evs
  | (evs, Except.error e) => evs ++ [Event.out e errSty]

/-- The callback the click group actually dispatches for `create`.
Decorators apply bottom-up: `@cli.command()` builds the command object
and registers it with the group, and only then does `@format_exception`
wrap that object — rebinding the module-level name but not the group's
registry entry.  Group dispatch therefore runs the unwrapped body, and an
exception it raises propagates to click.  The same ordering applies to
every sub-command in the file. -/
def registered_create (client : TuclusterClient) (name : String)
    (data description email : Option String) : List Event × Except String Unit :=
  create_body client name data description email

/-- Projection of a trace to the client calls it contains, in order. -/
def callsOf (evs : List Event) : List ClientCall :=
  evs.filterMap fun ev =>
    match ev with
    | Event.call c => some c
    | _ => none

/-- Recognizer for `update_model` calls. -/
def ClientCall.isUpdateModel : ClientCall → Bool
  | ClientCall.update_model _ _ _ _ => true
  | _ => false

/-- Recognizer for `add_model_file` calls. -/
def ClientCall.isAddFile : ClientCall → Bool
  | ClientCall.add_model_file _ => true
  | _ => false

/-- Whether an `Except` result is a normal return. -/
def exOk {α : Type} : Except String α → Bool
  | Except.ok _ => true
  | Except.error _ => false

/-- A client oracle on which every call succeeds, used to instantiate
hypotheses at concrete inputs. -/
def okClient : TuclusterClient where
  fileSize := fun _ => 10
  post_model_zip := fun _ => Except.ok "srv"
  update_model := fun _ _ _ _ => Except.ok ()
  create_empty_model := fun _ _ _ => Except.ok ()
  add_model_file := fun _ => Except.ok ()
  create_run := fun _ _ _ _ _ => Except.ok [⟨201, "run.py", "t1"⟩]
  get_model := fun _ _ => Except.ok (Json.obj [("b", Json.num 2), ("a", Json.num 1)])
  get_models := Except.ok (Json.arr [])
  get_results := fun _ _ _ => Except.ok (Json.obj [("b", Json.num 2), ("a", Json.num 1)])
  file := fun _ => Except.ok ()

/-- `okClient`, except that `create_empty_model` raises `boom`. -/
def boomClient : TuclusterClient :=
  { okClient with create_empty_model := fun _ _ _ => Except.error "boom" }

/-! ## Helper lemmas -/

theorem pyBind_ok {α β : Type} (r : List Event × Except String α)
    (k : α → List Event × Except String β) (a : α) (h : r.2 = Except.ok a) :
    pyBind r k = (r.1 ++ (k a).1, (k a).2) := by
  obtain ⟨evs, res⟩ := r
  cases res <;> simp_all [pyBind]

theorem pyBind_error {α β : Type} (r : List Event × Except String α)
    (k : α → List Event × Except String β) (e : String) (h : r.2 = Except.error e) :
    pyBind r k = (r.1, Except.error e) := by
  obtain ⟨evs, res⟩ := r
  cases res <;> simp_all [pyBind]

theorem callsOf_append (l₁ l₂ : List Event) :
    callsOf (l₁ ++ l₂) = callsOf l₁ ++ callsOf l₂ := by
  simp [callsOf]

theorem callsOf_update_success_outs (name : String) (new_name : Option String) :
    callsOf (update_success_outs name new_name) = [] := by
  cases new_name with
  | none => rfl
  | some nn =>
    by_cases h : (nn == "") = true <;> simp [update_success_outs, callsOf, h]

/-- Every client call the upload loop makes is `add_model_file` of one of
the given paths. -/
theorem uploadFiles_calls_are_adds (client : TuclusterClient) (files : List String) :
    ∀ c ∈ callsOf (uploadFiles client files).1,
      ∃ p ∈ files, c = ClientCall.add_model_file p := by
  induction files with
  | nil => intro c hc; simp [uploadFiles, callsOf] at hc
  | cons p rest ih =>
    intro c hc
    cases h : client.add_model_file p with
    | error e =>
      rw [uploadFiles, pyBind_error _ _ e h] at hc
      simp [callsOf] at hc
      exact ⟨p, List.mem_cons_self p rest, hc⟩
    | ok u =>
      rw [uploadFiles, pyBind_ok _ _ u h] at hc
      rw [callsOf_append] at hc
      rcases List.mem_append.mp hc with hc₁ | hc₂
      · simp [callsOf] at hc₁
        exact ⟨p, List.mem_cons_self p rest, hc₁⟩
      · obtain ⟨q, hq, hcq⟩ := ih c hc₂
        exact ⟨q, List.mem_cons_of_mem p hq, hcq⟩

/-- When every upload succeeds, the upload loop makes exactly one
`add_model_file` call per path, in order. -/
theorem uploadFiles_calls_all_ok (client : TuclusterClient) (files : List String)
    (hfiles : ∀ p ∈ files, client.add_model_file p = Except.ok ()) :
    callsOf (uploadFiles client files).1 = files.map ClientCall.add_model_file := by
  induction files with
  | nil => rfl
  | cons p rest ih =>
    have hp := hfiles p (List.mem_cons_self p rest)
    rw [uploadFiles, pyBind_ok _ _ () hp, callsOf_append,
      ih fun q hq => hfiles q (List.mem_cons_of_mem p hq)]
    simp [callsOf]

/-- The upload loop never calls `update_model`. -/
theorem uploadFiles_no_update_calls (client : TuclusterClient) (files : List String) :
    (callsOf (uploadFiles client files).1).filter ClientCall.isUpdateModel = [] := by
  rw [List.filter_eq_nil_iff]
  intro c hc
  obtain ⟨p, _, hcp⟩ := uploadFiles_calls_are_adds client files c hc
  subst hcp
  simp [ClientCall.isUpdateModel]

/-- Every call of the upload loop satisfies `isAddFile`, so the
`isAddFile` filter keeps its call trace unchanged. -/
theorem uploadFiles_filter_adds (client : TuclusterClient) (files : List String) :
    (callsOf (uploadFiles client files).1).filter ClientCall.isAddFile =
      callsOf (uploadFiles client files).1 := by
  rw [List.filter_eq_self]
  intro c hc
  obtain ⟨p, _, hcp⟩ := uploadFiles_calls_are_adds client files c hc
  subst hcp
  simp [ClientCall.isAddFile]

/-- A continuation that issues no client call contributes no calls. -/
theorem callsOf_pyBind {α β : Type} (r : List Event × Except String α)
    (k : α → List Event × Except String β) (hk : ∀ a, callsOf (k a).1 = []) :
    callsOf (pyBind r k).1 = callsOf r.1 := by
  obtain ⟨evs, res⟩ := r
  cases res <;> simp [pyBind, callsOf_append, hk]

/-- The events of the upload-then-report tail of `update` contain exactly
the upload loop's calls: the closing output adds none. -/
theorem update_tail_calls (client : TuclusterClient) (files : List String)
    (name : String) (new_name : Option String) :
    callsOf (pyBind (uploadFiles client files)
        (fun _ => (update_success_outs name new_name, Except.ok ()))).1 =
      callsOf (uploadFiles client files).1 :=
  callsOf_pyBind _ _ fun _ => callsOf_update_success_outs name new_name

/-- The `add_model_file` calls of an `update` execution, as a function of
the truthiness of the metadata options and the success of the patch call:
the patch segment and the closing output contribute none, and a failed
patch cuts the uploads off entirely. -/
theorem update_body_add_calls (client : TuclusterClient) (name : String)
    (files : List String) (description new_name email : Option String) :
    (callsOf (update_body client name files description new_name email).1).filter
        ClientCall.isAddFile =
      (if truthyS description || truthyS new_name || truthyS email then
         (if exOk (client.update_model name description new_name email) then
            callsOf (uploadFiles client files).1
          else [])
       else callsOf (uploadFiles client files).1) := by
  by_cases hm : (truthyS description || truthyS new_name || truthyS email) = true
  · rw [update_body, if_pos hm, if_pos hm]
    cases hu : client.update_model name description new_name email with
    | error e =>
      rw [pyBind_error _ _ e rfl]
      simp [exOk, hu, callsOf, ClientCall.isAddFile]
    | ok u =>
      rw [pyBind_ok _ _ u rfl]
      simp only [exOk, hu, if_true]
      rw [callsOf_append, List.filter_append, update_tail_calls,
        uploadFiles_filter_adds]
      simp [callsOf, ClientCall.isAddFile]
  · rw [update_body, if_neg hm, if_neg hm,
      pyBind_ok ([], Except.ok ()) _ () rfl]
    simp only [List.nil_append]
    rw [update_tail_calls, uploadFiles_filter_adds]

/-! ## Claim theorems -/

/-- C1: The claim says every sub-command dispatched through the CLI group
catches any exception raised in its body and renders it as a single bold
white-on-red line with the exception's string form, without propagating
it.  The code violates this (a slip contradicting `format_exception`'s
own docstring): `@cli.command()` registers the unwrapped command with the
group before `@format_exception` wraps it, so group dispatch runs the raw
body and the exception propagates to click.  Concretely, `tuga create m`
with `create_empty_model` raising `boom` escapes with `boom`; the wrapper
— had it been in the dispatch path — would have rendered exactly the
single error line the claim describes. -/
theorem create_dispatch_exception_escapes :
    (registered_create boomClient "m" none none none).2 = Except.error "boom" ∧
    format_exception (registered_create boomClient "m" none none none) =
      (registered_create boomClient "m" none none none).1 ++ [Event.out "boom" errSty] :=
  ⟨rfl, rfl⟩

/-- C2 counterexample: invoking `update` with `--description ''` — the
description option IS given, but Python truthiness treats the empty
string like an absent option, so no `update_model` call is made at all,
refuting "exactly one update_model call". -/
theorem update_empty_description_no_patch_call :
    callsOf (update_body okClient "m" [] (some "") none none).1 = [] := rfl

/-- C2 (amended): for every invocation of `update` in which at least one
of `--description`, `--name`, `--email` is given with a non-empty value,
exactly one `update_model` call is made, addressed to the invoked model
name and carrying the given description, new name and email in the
parameters of those names — the same correspondence `create`'s keyword
call uses (signature spec-modelled, see `ClientCall.update_model`). -/
theorem update_metadata_patch_call (client : TuclusterClient) (name : String)
    (files : List String) (description new_name email : Option String)
    (h : (truthyS description || truthyS new_name || truthyS email) = true) :
    (callsOf (update_body client name files description new_name email).1).filter
        ClientCall.isUpdateModel =
      [ClientCall.update_model name description new_name email] := by
  rw [update_body, if_pos h]
  cases hu : client.update_model name description new_name email with
  | error e =>
    rw [pyBind_error _ _ e rfl]
    simp [callsOf, ClientCall.isUpdateModel]
  | ok u =>
    rw [pyBind_ok _ _ u rfl, callsOf_append, List.filter_append, update_tail_calls,
      uploadFiles_no_update_calls]
    simp [callsOf, ClientCall.isUpdateModel]

theorem update_metadata_patch_call_witness :
    (truthyS (some "D") || truthyS (some "N") || truthyS (some "E")) = true ∧
    (callsOf (update_body okClient "m" ["f"] (some "D") (some "N") (some "E")).1).filter
        ClientCall.isUpdateModel =
      [ClientCall.update_model "m" (some "D") (some "N") (some "E")] :=
  ⟨by decide,
   update_metadata_patch_call okClient "m" ["f"] (some "D") (some "N") (some "E") (by decide)⟩

/-- C3: `create` with a data path (a `click.Path(exists=True)` argument,
hence non-empty) whose upload returns the server name `srv` makes exactly
the zip-upload call followed by the metadata patch addressed to `srv`
with the user's name, description and email; `create` without a data path
makes exactly one `create_empty_model` call with the given metadata and
never uploads. -/
theorem create_upload_then_patch (client : TuclusterClient) (name dat srv : String)
    (description email : Option String)
    (hdat : ¬ dat = "") (hpost : client.post_model_zip dat = Except.ok srv) :
    callsOf (create_body client name (some dat) description email).1 =
      [ClientCall.post_model_zip dat,
       ClientCall.update_model srv description (some name) email] ∧
    callsOf (create_body client name none description email).1 =
      [ClientCall.create_empty_model name description email] := by
  have hbranch : callsOf (create_data_branch client name dat description email).1 =
      [ClientCall.post_model_zip dat,
       ClientCall.update_model srv description (some name) email] := by
    rw [create_data_branch]
    rw [pyBind_ok _ _ srv (by exact hpost)]
    cases hu : client.update_model srv description (some name) email with
    | error e => rw [pyBind_error _ _ e rfl]; rfl
    | ok u => rw [pyBind_ok _ _ u rfl]; rfl
  have hne : (dat == "") = false := by
    simp [hdat]
  constructor
  · rw [create_body]
    refine (callsOf_pyBind _ _ ?_).trans ?_
    · intro a
      rfl
    · simp [hne, hbranch]
  · rw [create_body]
    refine (callsOf_pyBind _ _ ?_).trans ?_
    · intro a
      rfl
    · rw [create_empty_branch]
      refine (callsOf_pyBind _ _ ?_).trans rfl
      intro a
      rfl

theorem create_upload_then_patch_witness :
    (¬ "d.zip" = "") ∧ okClient.post_model_zip "d.zip" = Except.ok "srv" ∧
    callsOf (create_body okClient "m" (some "d.zip") (some "D") (some "E")).1 =
      [ClientCall.post_model_zip "d.zip",
       ClientCall.update_model "srv" (some "D") (some "m") (some "E")] :=
  ⟨by decide, rfl,
   (create_upload_then_patch okClient "m" "d.zip" "srv" (some "D") (some "E")
      (by decide) rfl).1⟩

/-- C4 counterexample: invoking `update` with `--description ''` and one
file — a metadata option is given, yet no patch call is issued at all
(Python truthiness), so the trace is the upload call alone, refuting
"the metadata-patch call (if any metadata option is given) is issued
strictly before any file-upload call". -/
theorem update_empty_description_upload_without_patch :
    callsOf (update_body okClient "m" ["f.txt"] (some "") none none).1 =
      [ClientCall.add_model_file "f.txt"] := rfl

/-- C4 (amended): for every invocation of `update` whose issued client
calls succeed, the metadata patch (issued exactly when a metadata option
is given with a non-empty value) strictly precedes every file upload, and
exactly one `add_model_file` call is issued per `--file` occurrence, in
the order the files were given. -/
theorem update_patch_before_uploads (client : TuclusterClient) (name : String)
    (files : List String) (description new_name email : Option String)
    (hmeta : client.update_model name description new_name email = Except.ok ())
    (hfiles : ∀ p ∈ files, client.add_model_file p = Except.ok ()) :
    callsOf (update_body client name files description new_name email).1 =
      (if truthyS description || truthyS new_name || truthyS email then
         [ClientCall.update_model name description new_name email]
       else []) ++ files.map ClientCall.add_model_file := by
  by_cases hm : (truthyS description || truthyS new_name || truthyS email) = true
  · rw [update_body, if_pos hm, if_pos hm, pyBind_ok _ _ () (by exact hmeta),
      callsOf_append, update_tail_calls, uploadFiles_calls_all_ok client files hfiles]
    rfl
  · rw [update_body, if_neg hm, if_neg hm, pyBind_ok ([], Except.ok ()) _ () rfl]
    simp only [List.nil_append]
    rw [update_tail_calls, uploadFiles_calls_all_ok client files hfiles]

theorem update_patch_before_uploads_witness :
    okClient.update_model "m" (some "D") none none = Except.ok () ∧
    (∀ p ∈ ["a.txt", "b.txt"], okClient.add_model_file p = Except.ok ()) ∧
    callsOf (update_body okClient "m" ["a.txt", "b.txt"] (some "D") none none).1 =
      [ClientCall.update_model "m" (some "D") none none,
       ClientCall.add_model_file "a.txt", ClientCall.add_model_file "b.txt"] :=
  ⟨rfl, fun p _ => rfl,
   update_patch_before_uploads okClient "m" ["a.txt", "b.txt"] (some "D") none none rfl
     (fun p _ => rfl)⟩

/-- C5 counterexample: on the concrete result object with keys `b`, `a`,
the `results` output line is NOT the serialization with item separator
`", "` claimed by the spec — the code passes `separators=(',', ': ')`,
so no space follows the comma. -/
theorem results_item_separator_counterexample :
    (results_body okClient none none none none none).1 ≠
      [Event.call (ClientCall.get_results none none none),
       Event.out "Result Info:" defSty,
       Event.out (json_dumps (Json.obj [("b", Json.num 2), ("a", Json.num 1)])
         true 4 ", " ": ") defSty] := by
  have hs : json_dumps (Json.obj [("b", Json.num 2), ("a", Json.num 1)]) true 4 "," ": " ≠
      json_dumps (Json.obj [("b", Json.num 2), ("a", Json.num 1)]) true 4 ", " ": " := by
    simp +decide [json_dumps, canonJson, canonKVs, sortKV, insertKV, strLt, jval, jkvs,
      jsonEscape, escChars, nlPad, pad, escChar]
  intro h
  have hL : (results_body okClient none none none none none).1 =
      [Event.call (ClientCall.get_results none none none),
       Event.out "Result Info:" defSty,
       Event.out (json_dumps (Json.obj [("b", Json.num 2), ("a", Json.num 1)])
         true 4 "," ": ") defSty] := rfl
  rw [hL] at h
  simp only [List.cons.injEq, Event.out.injEq, and_true, true_and] at h
  exact hs h

/-- C5 (amended): every result object printed by `model` or `results` is
serialized by `json.dumps` with sorted keys, 4-space indentation, item
separator `","` (no trailing space) and key separator `": "`. -/
theorem model_results_json_format (client : TuclusterClient)
    (name : Option String) (tree : Option Bool)
    (task mdl script download tr : Option String) (r rm : Json)
    (hres : client.get_results task mdl script = Except.ok r)
    (hm : (model_fetch client name tree).2 = Except.ok rm) :
    (results_body client task mdl script download tr).1 =
      [Event.call (ClientCall.get_results task mdl script),
       Event.out "Result Info:" defSty,
       Event.out (json_dumps r true 4 "," ": ") defSty] ∧
    (model_body client name tree).1 =
      (model_fetch client name tree).1 ++
        [Event.out "Model Info:" defSty,
         Event.out (json_dumps rm true 4 "," ": ") defSty] := by
  constructor
  · rw [results_body, pyBind_ok _ _ r (by exact hres)]
    rfl
  · rw [model_body, pyBind_ok _ _ rm hm]

theorem model_results_json_format_witness :
    okClient.get_results none none none =
      Except.ok (Json.obj [("b", Json.num 2), ("a", Json.num 1)]) ∧
    (model_fetch okClient none none).2 = Except.ok (Json.arr []) ∧
    (results_body okClient none none none none none).1 =
      [Event.call (ClientCall.get_results none none none),
       Event.out "Result Info:" defSty,
       Event.out (json_dumps (Json.obj [("b", Json.num 2), ("a", Json.num 1)])
         true 4 "," ": ") defSty] :=
  ⟨rfl, rfl,
   (model_results_json_format okClient none none none none none none none
      (Json.obj [("b", Json.num 2), ("a", Json.num 1)]) (Json.arr []) rfl rfl).1⟩

/-- C6: every invocation of `results` makes exactly one `get_results`
call carrying the task, model and script filters, and two invocations
agreeing on those but differing arbitrarily in `--download` and `--tree`
are indistinguishable: same call, same output (the two options are
accepted but never read). -/
theorem results_single_call_options_ignored (client : TuclusterClient)
    (task model script download tree download2 tree2 : Option String) :
    callsOf (results_body client task model script download tree).1 =
      [ClientCall.get_results task model script] ∧
    results_body client task model script download tree =
      results_body client task model script download2 tree2 := by
  refine ⟨?_, rfl⟩
  rw [results_body]
  refine (callsOf_pyBind _ _ ?_).trans rfl
  intro a
  rfl

/-- C7: per run-creation result, the printer emits, for status code 201,
the entry-point line, the hint header, and the `tuga results --task <id>`
hint; for any other status code, exactly the generic failure line. -/
theorem print_run_results_branches (rs : List RunResult) (r : RunResult) :
    _print_run_results rs = (rs.map perRunResult).flatten ∧
    (r.status_code = 201 →
      perRunResult r =
        [Event.out ("Run for script " ++ r.entry_point ++ " created.") greenSty,
         Event.out "To check the results, run: " defSty,
         Event.out ("tuga results --task " ++ r.task_id) blueSty]) ∧
    (r.status_code ≠ 201 →
      perRunResult r = [Event.out "Run creation failed" errSty]) := by
  refine ⟨rfl, fun h => ?_, fun h => ?_⟩
  · simp [perRunResult, h]
  · simp [perRunResult, h]

theorem print_run_results_branches_witness :
    perRunResult ⟨201, "run.py", "t1"⟩ =
      [Event.out "Run for script run.py created." greenSty,
       Event.out "To check the results, run: " defSty,
       Event.out "tuga results --task t1" blueSty] ∧
    perRunResult ⟨500, "x", "y"⟩ = [Event.out "Run creation failed" errSty] :=
  ⟨(print_run_results_branches [] ⟨201, "run.py", "t1"⟩).2.1 rfl,
   (print_run_results_branches [] ⟨500, "x", "y"⟩).2.2 (by decide)⟩

/-- C8: `anuga` and `tuflow` are the same command shape: both equal the
engine-parametric body, `anuga` at tag `anuga` and `tuflow` at tag
`tuflow` — so for equal arguments and equal client behavior they make
identical calls and produce identical output, differing only in the
engine tag handed to `create_run`. -/
theorem anuga_tuflow_differ_only_in_engine (client : TuclusterClient) (name : String)
    (script : Option String) (notify watch : Option Bool) :
    anuga_body client name script notify watch =
      engine_run_body client name script notify watch "anuga" ∧
    tuflow_body client name script notify watch =
      engine_run_body client name script notify watch "tuflow" :=
  ⟨rfl, rfl⟩

/-- C9: every upload call of `update` carries only the file path — never
the model name — and therefore two invocations differing only in the
model name (with the patch call's success unaffected, e.g. both absent or
both succeeding) issue identical upload-call sequences. -/
theorem update_upload_calls_independent_of_name (client : TuclusterClient)
    (name other : String) (files : List String)
    (description new_name email : Option String)
    (h : exOk (client.update_model name description new_name email) =
         exOk (client.update_model other description new_name email)) :
    ((callsOf (update_body client name files description new_name email).1).filter
        ClientCall.isAddFile =
      (callsOf (update_body client other files description new_name email).1).filter
        ClientCall.isAddFile) ∧
    (∀ c ∈ (callsOf (update_body client name files description new_name email).1).filter
        ClientCall.isAddFile, ∃ p ∈ files, c = ClientCall.add_model_file p) := by
  constructor
  · rw [update_body_add_calls, update_body_add_calls, h]
  · intro c hc
    rw [update_body_add_calls] at hc
    have hc2 : c ∈ callsOf (uploadFiles client files).1 := by
      by_cases hm : (truthyS description || truthyS new_name || truthyS email) = true
      · rw [if_pos hm] at hc
        by_cases ho : exOk (client.update_model name description new_name email) = true
        · rw [if_pos ho] at hc
          exact hc
        · rw [if_neg ho] at hc
          simp at hc
      · rw [if_neg hm] at hc
        exact hc
    exact uploadFiles_calls_are_adds client files c hc2

theorem update_upload_calls_independent_of_name_witness :
    (exOk (okClient.update_model "m" (some "D") none none) =
      exOk (okClient.update_model "other" (some "D") none none)) ∧
    ((callsOf (update_body okClient "m" ["f"] (some "D") none none).1).filter
        ClientCall.isAddFile =
      (callsOf (update_body okClient "other" ["f"] (some "D") none none).1).filter
        ClientCall.isAddFile) :=
  ⟨rfl,
   (update_upload_calls_independent_of_name okClient "m" "other" ["f"] (some "D")
      none none rfl).1⟩

/-- C10: `update` invoked with no metadata option and no `--file` makes
no client call whatsoever — for every client oracle the trace is exactly
the single success line `Model <name> updated!` — yet still reports
success. -/
theorem update_no_options_no_calls (client : TuclusterClient) (name : String) :
    update_body client name [] none none none =
      ([Event.out ("Model " ++ name ++ " updated!") greenSty], Except.ok ()) ∧
    callsOf (update_body client name [] none none none).1 = [] :=
  ⟨rfl, rfl⟩
